import Mathlib

/-
Verification of the Donau executor core (submission command builder, submission
retry channel, job-id extractor, two-phase status poller and lifecycle
reconciler) against its natural-language specification.  The definitions are a
shallow embedding of src/snakemake_executor_plugin_donau/executor.py (the
"plugin" variant); where a claim also concerns the older
src/snakemake_executor_donau/executor.py variant, separate definitions model
the diverging lines of that variant.
-/

set_option autoImplicit false

namespace Donau

/-- The whitespace characters recognised by Python str.strip(), str.split()
and the regex class backslash-s on the ASCII range. -/
def isPySpace (c : Char) : Bool :=
  c == ' ' || c == '\t' || c == '\n' || c == '\r' || c == '\x0b' || c == '\x0c'

/-- Python str.strip(): drop leading and trailing whitespace. -/
def pyStrip (s : String) : String :=
  String.mk (((s.data.dropWhile isPySpace).reverse.dropWhile isPySpace).reverse)

/-- A dynamically typed resource scalar as it appears in a Snakemake
resources mapping: an integer or a string. -/
inductive RVal where
  | i (n : Int)
  | s (t : String)
  deriving DecidableEq

/-- Python truthiness of a resource scalar. -/
def RVal.truthy : RVal → Bool
  | .i n => n != 0
  | .s t => t != ""

/-- Python str() of a resource scalar. -/
def RVal.toDisplay : RVal → String
  | .i n => toString n
  | .s t => t

def digitsToNat (ds : List Char) : Nat :=
  ds.foldl (fun a c => a * 10 + (c.toNat - 48)) 0

/-- Python int() applied to a string: optional surrounding whitespace,
optional sign, then a non-empty digit run; anything else raises ValueError,
modelled as none. -/
def pyIntOfString (t : String) : Option Int :=
  match (pyStrip t).data with
  | [] => none
  | c :: rest =>
    let ds := if c == '-' || c == '+' then rest else c :: rest
    if !ds.isEmpty && ds.all Char.isDigit then
      some (if c == '-' then -(digitsToNat ds : Int) else (digitsToNat ds : Int))
    else none

/-- Python int() applied to a resource scalar. -/
def RVal.toInt? : RVal → Option Int
  | .i n => some n
  | .s t => pyIntOfString t

/-- Truthiness of resources.get(key): None is falsy. -/
def rvTruthy : Option RVal → Bool
  | none => false
  | some v => v.truthy

/-- Python str() of resources.get(key). -/
def rvStr : Option RVal → String
  | none => "None"
  | some v => v.toDisplay

/-- Python int() of resources.get(key); none encodes a raised ValueError. -/
def rvInt? : Option RVal → Option Int
  | none => none
  | some v => v.toInt?

/-- Truthiness of an optional integer resource value. -/
def intTruthy : Option Int → Bool
  | none => false
  | some n => n != 0

/-- The optional resource fields looked up by Executor.run_job. -/
structure Resources where
  queue : Option RVal := none
  partition : Option RVal := none
  account : Option RVal := none
  mpi : Option RVal := none
  nodes : Option RVal := none
  replica : Option RVal := none
  exclusive : Option RVal := none
  tag : Option RVal := none
  mem_mb : Option Int := none
  mem_mb_per_cpu : Option Int := none
  runtime : Option RVal := none
  time_min : Option RVal := none
  deriving DecidableEq

/-- The job descriptor fields consumed by Executor.run_job. -/
structure Job where
  name : String
  jobid : Nat
  groupid : String
  is_group : Bool
  wildcards_dict : List (String × String)
  threads : Int
  priority : Int
  resources : Resources
  deriving DecidableEq

/-- jobname = f"smk_(job.name)_(run_uuid[:8])" from run_job. -/
def jobname (run_uuid : String) (job : Job) : String :=
  "smk_" ++ job.name ++ "_" ++ (run_uuid.take 8)

/-- The flattened-wildcards path component of the log path. -/
def wildcards_str (job : Job) : String :=
  if job.is_group then "group"
  else
    let s := String.intercalate "_" (job.wildcards_dict.map (fun p => p.1 ++ "-" ++ p.2))
    let s2 := if s = "" then "unique" else s
    s2.replace "/" "-"

/-- The per-rule or per-group folder component of the log path. -/
def log_folder (job : Job) : String :=
  if job.is_group then "group_" ++ job.groupid else "rule_" ++ job.name

/-- The log path relative to the working directory (os.path.abspath not
modelled; it only prefixes the working directory). -/
def logfile_rel (job : Job) : String :=
  ".snakemake/donau_logs/" ++ log_folder job ++ "/" ++ wildcards_str job ++ "/"
    ++ toString job.jobid ++ ".log"

/-- Queue block of run_job: -q resources.queue, elif -q resources.partition. -/
def queue_tokens (r : Resources) : List String :=
  if rvTruthy r.queue then ["-q", rvStr r.queue]
  else if rvTruthy r.partition then ["-q", rvStr r.partition]
  else []

/-- Priority block of run_job: -p max(1, min(9999, priority)) iff priority is nonzero. -/
def priority_tokens (p : Int) : List String :=
  if p != 0 then ["-p", toString (max 1 (min 9999 p))] else []

/-- Node-count block of run_job: nnodes = resources.nodes or resources.replica. -/
def nodes_tokens (r : Resources) : List String :=
  let nnodes := if rvTruthy r.nodes then r.nodes else r.replica
  if rvTruthy nnodes then ["-N", rvStr nnodes] else []

/-- Account block of run_job. -/
def account_tokens (r : Resources) : List String :=
  if rvTruthy r.account then ["-A", rvStr r.account] else []

/-- MPI block of run_job. -/
def mpi_tokens (r : Resources) : List String :=
  if rvTruthy r.mpi then ["--mpi", rvStr r.mpi] else []

/-- Exclusive block of run_job: fixed tokens -x job. -/
def exclusive_tokens (r : Resources) : List String :=
  if rvTruthy r.exclusive then ["-x", "job"] else []

/-- Tag block of run_job. -/
def tag_tokens (r : Resources) : List String :=
  if rvTruthy r.tag then ["--tag", rvStr r.tag] else []

/-- cpus = max(1, job.threads). -/
def cpus_of (threads : Int) : Int := max 1 threads

/-- mem_mb = resources.get("mem_mb", 1024), overridden by
mem_mb_per_cpu * cpus when mem_mb_per_cpu is truthy. -/
def mem_mb_of (r : Resources) (cpus : Int) : Int :=
  if intTruthy r.mem_mb_per_cpu then (r.mem_mb_per_cpu.getD 0) * cpus
  else r.mem_mb.getD 1024

/-- CPU/memory block of run_job in the plugin variant:
-R f"cpu=(cpus),mem=(int(mem_mb))MB". -/
def cpumem_tokens (r : Resources) (threads : Int) : List String :=
  ["-R", "cpu=" ++ toString (cpus_of threads) ++ ",mem="
    ++ toString (mem_mb_of r (cpus_of threads)) ++ "MB"]

/-- CPU/memory block of the snakemake_executor_donau variant: its f-string
doubles the braces, so Python renders the brace text literally instead of
interpolating cpus and mem_mb (which are computed but unused). -/
def donau_cpumem_tokens (r : Resources) (threads : Int) : List String :=
  let cpus := cpus_of threads
  let _mem_mb := mem_mb_of r cpus
  ["-R", "cpu=\x7bcpus\x7d,mem=\x7bint(mem_mb)\x7dMB"]

/-- Runtime block of run_job: runtime_min = resources.runtime or
resources.time_min; -T int(runtime_min) * 60, skipped on ValueError. -/
def runtime_tokens (r : Resources) : List String :=
  let runtime_min := if rvTruthy r.runtime then r.runtime else r.time_min
  if rvTruthy runtime_min then
    match rvInt? runtime_min with
    | some n => ["-T", toString (n * 60)]
    | none => []
  else []

/-- The full cmd_parts list built by Executor.run_job in the plugin variant,
with the same sequential appends as the source. -/
def run_job_cmd (jobname_arg logfile workdir : String) (job : Job) (exec_job : String) :
    List String :=
  let cmd := ["dsub", "-n", jobname_arg, "-oo", logfile]
  let cmd := cmd ++ ["--cwd", workdir]
  let cmd :=
    if rvTruthy job.resources.queue then cmd ++ ["-q", rvStr job.resources.queue]
    else if rvTruthy job.resources.partition then cmd ++ ["-q", rvStr job.resources.partition]
    else cmd
  let cmd :=
    if job.priority != 0 then cmd ++ ["-p", toString (max 1 (min 9999 job.priority))]
    else cmd
  let nnodes := if rvTruthy job.resources.nodes then job.resources.nodes else job.resources.replica
  let cmd := if rvTruthy nnodes then cmd ++ ["-N", rvStr nnodes] else cmd
  let cmd :=
    if rvTruthy job.resources.account then cmd ++ ["-A", rvStr job.resources.account] else cmd
  let cmd := if rvTruthy job.resources.mpi then cmd ++ ["--mpi", rvStr job.resources.mpi] else cmd
  let cmd := if rvTruthy job.resources.exclusive then cmd ++ ["-x", "job"] else cmd
  let cmd := if rvTruthy job.resources.tag then cmd ++ ["--tag", rvStr job.resources.tag] else cmd
  let cpus := max 1 job.threads
  let mem_mb :=
    if intTruthy job.resources.mem_mb_per_cpu then (job.resources.mem_mb_per_cpu.getD 0) * cpus
    else job.resources.mem_mb.getD 1024
  let cmd := cmd ++ ["-R", "cpu=" ++ toString cpus ++ ",mem=" ++ toString mem_mb ++ "MB"]
  let runtime_min :=
    if rvTruthy job.resources.runtime then job.resources.runtime else job.resources.time_min
  let cmd :=
    if rvTruthy runtime_min then
      match rvInt? runtime_min with
      | some n => cmd ++ ["-T", toString (n * 60)]
      | none => cmd
    else cmd
  cmd ++ [exec_job]

/-- Modelled from the spec: the section 4.2 command assembly using the
Resource Mapper token order of section 4.1 (queue, account, mpi, node count,
exclusive, tag, cpu/memory, runtime, priority), as the claim states it. -/
def spec_cmd_order (jobname_arg logfile workdir : String) (job : Job) (exec_job : String) :
    List String :=
  ["dsub", "-n", jobname_arg, "-oo", logfile, "--cwd", workdir]
    ++ queue_tokens job.resources ++ account_tokens job.resources
    ++ mpi_tokens job.resources ++ nodes_tokens job.resources
    ++ exclusive_tokens job.resources ++ tag_tokens job.resources
    ++ cpumem_tokens job.resources job.threads ++ runtime_tokens job.resources
    ++ priority_tokens job.priority ++ [exec_job]

/-- Modelled from the spec: the claimed memory value, where a present
mem_mb_per_cpu always overrides mem_mb. -/
def spec_mem_mb (r : Resources) (cpus : Int) : Int :=
  match r.mem_mb_per_cpu with
  | some v => v * cpus
  | none => r.mem_mb.getD 1024

/-! ## Submission channel: _run_cmd_with_retry and the run_job error wrapper -/

/-- One pass of the for-loop body of _run_cmd_with_retry over the remaining
loop indices.  The attempt oracle gives, per loop index, either the raised
CalledProcessError output or the subprocess output; a successful output is
returned stripped.  The second component records the sleep durations, in
order. -/
def retry_go (attempts : Nat → Except String String) (delay retries : Nat) :
    List Nat → Except String String × List Nat
  | [] => (.ok "", [])
  | i :: rest =>
    match attempts i with
    | .ok out => (.ok (pyStrip out), [])
    | .error e =>
      if i = retries - 1 then (.error e, [])
      else
        let r := retry_go attempts delay retries rest
        (r.1, delay * (i + 1) :: r.2)

/-- _run_cmd_with_retry(cmd, retries, delay): for i in range(retries). -/
def run_cmd_with_retry (attempts : Nat → Except String String) (retries delay : Nat) :
    Except String String × List Nat :=
  retry_go attempts delay retries (List.range retries)

/-- run_job around the retry channel: a CalledProcessError escaping the
retries is re-raised as a WorkflowError carrying the command string and the
captured output. -/
def run_job_submit (attempts : Nat → Except String String) (retries delay : Nat)
    (cmd_str : String) : Except String String × List Nat :=
  let r := run_cmd_with_retry attempts retries delay
  match r.1 with
  | .ok out => (.ok out, r.2)
  | .error e =>
    (.error ("Donau submission failed.\nCommand: " ++ cmd_str ++ "\nOutput: " ++ e), r.2)

/-! ## Job-ID extractor -/

/-- re.search of <(digits)> : leftmost occurrence of an angle-bracket-enclosed
non-empty digit run; the returned string is the capture group. -/
def find_angle : List Char → Option String
  | [] => none
  | c :: rest =>
    if c = '<' then
      let ds := rest.takeWhile Char.isDigit
      if ds ≠ [] ∧ (rest.drop ds.length).head? = some '>' then some (String.mk ds)
      else find_angle rest
    else find_angle rest

/-- re.search of an anchored leading digit run after optional leading
whitespace. -/
def find_leading (cs : List Char) : Option String :=
  let ds := (cs.dropWhile isPySpace).takeWhile Char.isDigit
  if ds ≠ [] then some (String.mk ds) else none

/-- Job-id extraction in run_job: the angle-bracket convention first,
falling back to the leading-number convention. -/
def extract_jobid (output : String) : Option String :=
  match find_angle output.data with
  | some d => some d
  | none => find_leading output.data

/-! ## Status poller: _get_donau_job_status_async -/

/-- A status snapshot: the dict from external job id to raw state token. -/
abbrev StatusMap := List (String × String)

/-- Dict lookup status_map[jid] / jid in status_map. -/
def lookupStatus (m : StatusMap) (k : String) : Option String :=
  (m.find? (fun p => p.1 == k)).map (fun p => p.2)

/-- Dict update status_map[jid] = state (overwrites an existing key). -/
def mapInsert (m : StatusMap) (k v : String) : StatusMap :=
  (k, v) :: m.filter (fun p => p.1 != k)

/-- Python "text".split("\n"). -/
def splitOnNl : List Char → List (List Char)
  | [] => [[]]
  | c :: rest =>
    let r := splitOnNl rest
    if c = '\n' then [] :: r
    else
      match r with
      | [] => [[c]]
      | l :: ls => (c :: l) :: ls

def pyWordsAux : List Char → List Char → List (List Char)
  | [], acc => if acc.isEmpty then [] else [acc.reverse]
  | c :: rest, acc =>
    if isPySpace c then
      if acc.isEmpty then pyWordsAux rest [] else acc.reverse :: pyWordsAux rest []
    else pyWordsAux rest (c :: acc)

/-- Python line.split(): whitespace-separated fields, empties dropped. -/
def pyWords (cs : List Char) : List (List Char) := pyWordsAux cs []

/-- The output-parsing loop of query_djob: for each line with at least two
whitespace-separated fields whose first field is one of the queried ids,
record id -> state.  Lines with fewer fields and ids outside the query set
are ignored. -/
def parse_query_output (target_ids : List String) (raw : String) (m : StatusMap) :
    StatusMap :=
  let output := pyStrip raw
  if output = "" then m
  else
    (splitOnNl output.data).foldl
      (fun acc line =>
        match (pyWords line).map String.mk with
        | jid :: state :: _ =>
          if jid ∈ target_ids then mapInsert acc jid state else acc
        | _ => acc)
      m

/-- One call of query_djob in the plugin variant.  The outcome oracle stands
for the djob subprocess: error covers both a non-zero exit status and a
raised exception, either of which sets error_occurred; ok carries the decoded
stdout.  Nothing runs when the target id list is empty. -/
def run_query (outcome : Except Unit String) (target_ids : List String) (m : StatusMap) :
    StatusMap × Bool :=
  if target_ids = [] then (m, false)
  else
    match outcome with
    | .error _ => (m, true)
    | .ok raw => (parse_query_output target_ids raw m, false)

/-- remaining = job_ids - set(status_map.keys()). -/
def remaining_ids (ids : List String) (m : StatusMap) : List String :=
  ids.filter (fun i => (lookupStatus m i).isNone)

/-- _get_donau_job_status_async in the plugin variant: query active jobs with
the full id set, then query historical jobs (djob -D) with exactly the
remainder, but only when no error occurred; any error yields no snapshot. -/
def get_donau_job_status (active_outcome hist_outcome : Except Unit String)
    (ids : List String) : Option StatusMap :=
  let r1 := run_query active_outcome ids []
  let remaining := remaining_ids ids r1.1
  if remaining ≠ [] ∧ r1.2 = false then
    let r2 := run_query hist_outcome remaining r1.1
    if r1.2 || r2.2 then none else some r2.1
  else
    if r1.2 then none else some r1.1

/-! ## Lifecycle reconciler: check_active_jobs -/

def success_states : List String := ["FINISHED", "SUCCEEDED", "DONE", "0"]

def fail_states : List String :=
  ["FAILED", "ABORTED", "TIMEOUT", "NODE_FAIL", "TERMINATED", "EXIT"]

/-- The tracked-job record as check_active_jobs reads it: the external id and
the aux logfile entry. -/
structure SubmittedJobInfo where
  external_jobid : String
  logfile : Option String
  deriving DecidableEq

/-- A terminal report emitted for a tracked job: report_job_success, or
report_job_error with its message and aux_logs arguments. -/
inductive Report where
  | success (job : SubmittedJobInfo)
  | failure (job : SubmittedJobInfo) (msg : String) (aux_logs : List (Option String))
  deriving DecidableEq

/-- Python state.upper() (the state vocabulary is ASCII). -/
def pyUpper (s : String) : String := String.mk (s.data.map Char.toUpper)

/-- The job a report is about. -/
def report_job : Report → SubmittedJobInfo
  | .success j => j
  | .failure j _ _ => j

/-- The per-job loop of check_active_jobs in the plugin variant, given an
obtained snapshot: first component the re-yielded jobs, second the emitted
reports, both in traversal order.  An id absent from the snapshot is reported
as a success in this variant. -/
def reconcile_plugin (m : StatusMap) : List SubmittedJobInfo → List SubmittedJobInfo × List Report
  | [] => ([], [])
  | j :: rest =>
    let acc := reconcile_plugin m rest
    match lookupStatus m j.external_jobid with
    | none => (acc.1, .success j :: acc.2)
    | some st =>
      let state := pyUpper st
      if state ∈ success_states then (acc.1, .success j :: acc.2)
      else if state ∈ fail_states then
        (acc.1,
          .failure j ("Donau job " ++ j.external_jobid ++ " failed with state " ++ state)
            [j.logfile] :: acc.2)
      else (j :: acc.1, acc.2)

/-- The per-job loop of check_active_jobs in the snakemake_executor_donau
variant: identical classification, but an id absent from the snapshot is
re-yielded instead of being reported. -/
def reconcile_donau (m : StatusMap) : List SubmittedJobInfo → List SubmittedJobInfo × List Report
  | [] => ([], [])
  | j :: rest =>
    let acc := reconcile_donau m rest
    match lookupStatus m j.external_jobid with
    | none => (j :: acc.1, acc.2)
    | some st =>
      let state := pyUpper st
      if state ∈ success_states then (acc.1, .success j :: acc.2)
      else if state ∈ fail_states then
        (acc.1,
          .failure j ("Donau job " ++ j.external_jobid ++ " failed with state " ++ state)
            [j.logfile] :: acc.2)
      else (j :: acc.1, acc.2)

/-- job_ids = the set of external ids of the tracked jobs. -/
def job_ids_of (jobs : List SubmittedJobInfo) : List String :=
  (jobs.map (fun j => j.external_jobid)).dedup

/-- check_active_jobs in the plugin variant, given the poll result: an empty
tracked set returns immediately; a failed poll (no snapshot) re-yields every
job with no reports; otherwise the per-job loop runs. -/
def check_active_jobs (st : Option StatusMap) (jobs : List SubmittedJobInfo) :
    List SubmittedJobInfo × List Report :=
  if job_ids_of jobs = [] then ([], [])
  else
    match st with
    | none => (jobs, [])
    | some m => reconcile_plugin m jobs

/-- One full polling tick of the plugin variant: the two-phase poll over the
tracked ids feeding the reconciler. -/
def full_tick (active_outcome hist_outcome : Except Unit String)
    (jobs : List SubmittedJobInfo) : List SubmittedJobInfo × List Report :=
  check_active_jobs (get_donau_job_status active_outcome hist_outcome (job_ids_of jobs)) jobs

/-! ## Concrete data used by witnesses and counterexamples -/

/-- Resources carrying only an account, used to exhibit the command order. -/
def rAcct : Resources := { account := some (.s "acct") }

/-- A job with a nonzero priority and an account resource. -/
def jobC4 : Job :=
  { name := "a", jobid := 1, groupid := "", is_group := false, wildcards_dict := [],
    threads := 1, priority := 5, resources := rAcct }

/-- Resources with mem_mb only. -/
def rMem : Resources := { mem_mb := some 2048 }

/-- Resources with a present-but-zero mem_mb_per_cpu next to mem_mb. -/
def rZero : Resources := { mem_mb := some 2048, mem_mb_per_cpu := some 0 }

/-- A job with mem_mb_per_cpu present. -/
def jobW5 : Job :=
  { name := "c", jobid := 3, groupid := "", is_group := false, wildcards_dict := [],
    threads := 3, priority := 0, resources := { mem_mb_per_cpu := some 512 } }

/-- A job with a negative declared priority. -/
def jobW7 : Job :=
  { name := "b", jobid := 2, groupid := "", is_group := false, wildcards_dict := [],
    threads := 2, priority := -3, resources := {} }

/-- A tracked job used in witnesses. -/
def jW : SubmittedJobInfo := { external_jobid := "7", logfile := some "w.log" }

/-- An attempt oracle failing twice, then succeeding. -/
def attemptsW : Nat → Except String String :=
  fun n => if n = 0 then .error "E1" else if n = 1 then .error "E2" else .ok " 12345 "

/-! ## Command-builder decomposition helpers -/

lemma ite_append_right (b : Bool) (c X : List String) :
    (if b then c ++ X else c) = c ++ (if b then X else []) := by
  cases b <;> simp

lemma ite_ite_append (b1 b2 : Bool) (c X1 X2 : List String) :
    (if b1 then c ++ X1 else if b2 then c ++ X2 else c)
      = c ++ (if b1 then X1 else if b2 then X2 else []) := by
  cases b1 <;> cases b2 <;> simp

lemma runtime_stage (cmd : List String) (r : Resources) :
    (if rvTruthy (if rvTruthy r.runtime then r.runtime else r.time_min) then
      match rvInt? (if rvTruthy r.runtime then r.runtime else r.time_min) with
      | some n => cmd ++ ["-T", toString (n * 60)]
      | none => cmd
     else cmd) = cmd ++ runtime_tokens r := by
  unfold runtime_tokens
  cases hb : rvTruthy (if rvTruthy r.runtime then r.runtime else r.time_min) <;>
    cases h : rvInt? (if rvTruthy r.runtime then r.runtime else r.time_min) <;>
      simp [hb, h]

/-- run_job builds the command as the fixed head, the resource blocks in
source order, and the execution payload last. -/
lemma run_job_cmd_blocks (jn lf wd : String) (job : Job) (x : String) :
    run_job_cmd jn lf wd job x =
      ["dsub", "-n", jn, "-oo", lf, "--cwd", wd]
        ++ queue_tokens job.resources ++ priority_tokens job.priority
        ++ nodes_tokens job.resources ++ account_tokens job.resources
        ++ mpi_tokens job.resources ++ exclusive_tokens job.resources
        ++ tag_tokens job.resources ++ cpumem_tokens job.resources job.threads
        ++ runtime_tokens job.resources ++ [x] := by
  simp only [run_job_cmd]
  rw [runtime_stage, ite_append_right, ite_append_right, ite_append_right, ite_append_right,
    ite_append_right, ite_append_right, ite_ite_append]
  simp only [queue_tokens, priority_tokens, nodes_tokens, account_tokens, mpi_tokens,
    exclusive_tokens, tag_tokens, cpumem_tokens, cpus_of, mem_mb_of, List.append_assoc,
    List.cons_append, List.nil_append]

/-! ## Claim theorems -/

/-- Claim C2: if the status poll fails entirely (no snapshot is obtainable),
the reconciliation tick re-yields every tracked job unchanged and emits zero
success and zero failure reports. -/
theorem failed_poll_reyields (a h : Except Unit String) (jobs : List SubmittedJobInfo)
    (hp : get_donau_job_status a h (job_ids_of jobs) = none) :
    full_tick a h jobs = (jobs, []) := by
  unfold full_tick check_active_jobs
  rw [hp]
  split
  · rename_i hids
    have hnil : jobs = [] := by
      cases jobs with
      | nil => rfl
      | cons j rest =>
        exfalso
        simp [job_ids_of, List.dedup_eq_nil] at hids
    subst hnil
    rfl
  · rfl

theorem failed_poll_reyields_witness :
    full_tick (.error ()) (.error ()) [jW] = ([jW], []) :=
  failed_poll_reyields (.error ()) (.error ()) [jW] (by decide)

/-- Claim C4 (amended): the built submission command is ordered as the
submission verb, job-name flag, output-redirection flag with the log path,
working-directory flag, then the resource tokens in the source order queue,
priority, node count, account, mpi, exclusive, tag, cpu/memory, runtime, and
finally the pre-formatted execution payload as the last token.  (The claimed
section 4.1 order — priority last, node count after mpi — does not match the
code.) -/
theorem run_job_cmd_order (jn lf wd : String) (job : Job) (x : String) :
    run_job_cmd jn lf wd job x =
      ["dsub", "-n", jn, "-oo", lf, "--cwd", wd]
        ++ queue_tokens job.resources ++ priority_tokens job.priority
        ++ nodes_tokens job.resources ++ account_tokens job.resources
        ++ mpi_tokens job.resources ++ exclusive_tokens job.resources
        ++ tag_tokens job.resources ++ cpumem_tokens job.resources job.threads
        ++ runtime_tokens job.resources ++ [x] :=
  run_job_cmd_blocks jn lf wd job x

/-- Claim C4 counterexample: for a job with priority 5 and an account
resource, the code places -p directly after the queue block and before -A,
whereas the claimed section 4.1 order places -p after every other resource
token; the two command lists differ. -/
theorem run_job_cmd_order_counterexample :
    run_job_cmd "n" "l" "w" jobC4 "payload"
        = ["dsub", "-n", "n", "-oo", "l", "--cwd", "w", "-p", "5", "-A", "acct",
           "-R", "cpu=1,mem=1024MB", "payload"] ∧
    spec_cmd_order "n" "l" "w" jobC4 "payload"
        = ["dsub", "-n", "n", "-oo", "l", "--cwd", "w", "-A", "acct",
           "-R", "cpu=1,mem=1024MB", "-p", "5", "payload"] ∧
    run_job_cmd "n" "l" "w" jobC4 "payload" ≠ spec_cmd_order "n" "l" "w" jobC4 "payload" :=
  ⟨by decide, by decide, by decide⟩

/-- Claim C6: a submission failing on the first two attempts and succeeding
on the third returns the third attempt output (stripped), sleeping delay
after the first failure and 2 × delay after the second, and nothing else;
when all three attempts fail, the error carrying the command string and the
captured output propagates, after the same two sleeps. -/
theorem retry_backoff (attempts : Nat → Except String String) (delay : Nat)
    (cmd_str e1 e2 : String)
    (h0 : attempts 0 = .error e1) (h1 : attempts 1 = .error e2) :
    (∀ out, attempts 2 = .ok out →
      run_cmd_with_retry attempts 3 delay = (.ok (pyStrip out), [delay * 1, delay * 2])) ∧
    (∀ e3, attempts 2 = .error e3 →
      run_job_submit attempts 3 delay cmd_str =
        (.error ("Donau submission failed.\nCommand: " ++ cmd_str ++ "\nOutput: " ++ e3),
         [delay * 1, delay * 2])) := by
  have hr : List.range 3 = [0, 1, 2] := rfl
  constructor
  · intro out h2
    simp [run_cmd_with_retry, hr, retry_go, h0, h1, h2]
  · intro e3 h2
    simp [run_job_submit, run_cmd_with_retry, hr, retry_go, h0, h1, h2]

theorem retry_backoff_witness :
    run_cmd_with_retry attemptsW 3 2 = (.ok (pyStrip " 12345 "), [2 * 1, 2 * 2]) :=
  (retry_backoff attemptsW 2 "CMD" "E1" "E2" rfl rfl).1 " 12345 " rfl

/-- Claim C8: job-id extraction is order-preferential — on text where both
the angle-bracket convention and the leading-number convention match, the
angle-bracket number is returned — and extraction is deterministic on equal
text. -/
theorem extract_jobid_preferential (s t : String) (d dl : String)
    (hA : find_angle s.data = some d) (hL : find_leading s.data = some dl) :
    extract_jobid s = some d ∧ (s = t → extract_jobid s = extract_jobid t) := by
  refine ⟨?_, fun h => by rw [h]⟩
  unfold extract_jobid
  rw [hA]

theorem extract_jobid_preferential_witness :
    extract_jobid "12 jobs <345> submitted" = some "345" ∧
      ("12 jobs <345> submitted" = "12 jobs <345> submitted" →
        extract_jobid "12 jobs <345> submitted" = extract_jobid "12 jobs <345> submitted") :=
  extract_jobid_preferential "12 jobs <345> submitted" "12 jobs <345> submitted" "345" "12"
    (by decide) (by decide)

/-- Claim C7: the -p flag is emitted iff the declared priority is nonzero;
the emitted value is max 1 (min 9999 priority), which always lies in
[1, 9999], is 1 for any input below 1, is 9999 for any input above 9999, and
is the input itself inside the range; the flag sits inside the built
command. -/
theorem priority_flag_clamped (jn lf wd x : String) (job : Job) :
    (job.priority = 0 → priority_tokens job.priority = []) ∧
    (job.priority ≠ 0 →
      priority_tokens job.priority = ["-p", toString (max 1 (min 9999 job.priority))] ∧
      (1 : Int) ≤ max 1 (min 9999 job.priority) ∧
      max 1 (min 9999 job.priority) ≤ 9999 ∧
      (job.priority < 1 → max 1 (min 9999 job.priority) = 1) ∧
      (9999 < job.priority → max 1 (min 9999 job.priority) = 9999) ∧
      (1 ≤ job.priority → job.priority ≤ 9999 → max 1 (min 9999 job.priority) = job.priority)) ∧
    (∃ pre post : List String,
      run_job_cmd jn lf wd job x = pre ++ priority_tokens job.priority ++ post) := by
  refine ⟨?_, ?_, ?_⟩
  · intro h
    simp [priority_tokens, h]
  · intro h
    refine ⟨by simp [priority_tokens, h], ?_, ?_, ?_, ?_, ?_⟩ <;>
      · simp only [max_def, min_def]
        split_ifs <;> omega
  · refine ⟨["dsub", "-n", jn, "-oo", lf, "--cwd", wd] ++ queue_tokens job.resources,
      nodes_tokens job.resources ++ account_tokens job.resources ++ mpi_tokens job.resources
        ++ exclusive_tokens job.resources ++ tag_tokens job.resources
        ++ cpumem_tokens job.resources job.threads ++ runtime_tokens job.resources ++ [x], ?_⟩
    rw [run_job_cmd_blocks]
    simp [List.append_assoc]

/-- Claim C5 (amended): the plugin variant emits the CPU/memory token
cpu=max(1,threads),mem=<mem>MB with mem_mb_per_cpu overriding mem_mb exactly
when it is present with a nonzero value (Python truthiness), mem_mb
defaulting to 1024 when absent; the snakemake_executor_donau variant instead
emits the literal brace text of its doubled-brace f-string. -/
theorem cpumem_render (jn lf wd x : String) (job : Job)
    (hm : job.resources.mem_mb_per_cpu ≠ some 0) :
    (∃ pre post : List String,
      run_job_cmd jn lf wd job x =
        pre ++ ["-R", "cpu=" ++ toString (max 1 job.threads) ++ ",mem="
          ++ toString (spec_mem_mb job.resources (max 1 job.threads)) ++ "MB"] ++ post) ∧
    donau_cpumem_tokens job.resources job.threads
      = ["-R", "cpu=\x7bcpus\x7d,mem=\x7bint(mem_mb)\x7dMB"] := by
  constructor
  · have htok : cpumem_tokens job.resources job.threads
        = ["-R", "cpu=" ++ toString (max 1 job.threads) ++ ",mem="
            ++ toString (spec_mem_mb job.resources (max 1 job.threads)) ++ "MB"] := by
      unfold cpumem_tokens cpus_of mem_mb_of spec_mem_mb
      cases hpc : job.resources.mem_mb_per_cpu with
      | none => simp [intTruthy]
      | some v =>
        have hv : v ≠ 0 := by
          intro hv0
          exact hm (by rw [hpc, hv0])
        simp [intTruthy, hv]
    refine ⟨["dsub", "-n", jn, "-oo", lf, "--cwd", wd] ++ queue_tokens job.resources
        ++ priority_tokens job.priority ++ nodes_tokens job.resources
        ++ account_tokens job.resources ++ mpi_tokens job.resources
        ++ exclusive_tokens job.resources ++ tag_tokens job.resources,
      runtime_tokens job.resources ++ [x], ?_⟩
    rw [run_job_cmd_blocks, htok]
    simp [List.append_assoc]
  · rfl

theorem cpumem_render_witness :
    (∃ pre post : List String,
      run_job_cmd "n" "l" "w" jobW5 "x" =
        pre ++ ["-R", "cpu=" ++ toString (max 1 jobW5.threads) ++ ",mem="
          ++ toString (spec_mem_mb jobW5.resources (max 1 jobW5.threads)) ++ "MB"] ++ post) ∧
    donau_cpumem_tokens jobW5.resources jobW5.threads
      = ["-R", "cpu=\x7bcpus\x7d,mem=\x7bint(mem_mb)\x7dMB"] :=
  cpumem_render "n" "l" "w" "x" jobW5 (by decide)

/-- Claim C5 counterexample: (i) the snakemake_executor_donau variant emits
the literal text cpu={cpus},mem={int(mem_mb)}MB (its f-string doubles the
braces) instead of the claimed rendering cpu=4,mem=2048MB; (ii) in the
plugin variant a present-but-zero mem_mb_per_cpu does not override mem_mb
(Python truthiness), while the claim demands mem = 0 * cpus = 0. -/
theorem cpumem_render_counterexample :
    donau_cpumem_tokens rMem 4 = ["-R", "cpu=\x7bcpus\x7d,mem=\x7bint(mem_mb)\x7dMB"] ∧
    ("cpu=" ++ toString (cpus_of 4) ++ ",mem="
        ++ toString (spec_mem_mb rMem (cpus_of 4)) ++ "MB") = "cpu=4,mem=2048MB" ∧
    donau_cpumem_tokens rMem 4
      ≠ ["-R", "cpu=" ++ toString (cpus_of 4) ++ ",mem="
          ++ toString (spec_mem_mb rMem (cpus_of 4)) ++ "MB"] ∧
    cpumem_tokens rZero 1 = ["-R", "cpu=1,mem=2048MB"] ∧
    ("cpu=" ++ toString (cpus_of 1) ++ ",mem="
        ++ toString (spec_mem_mb rZero (cpus_of 1)) ++ "MB") = "cpu=1,mem=0MB" ∧
    cpumem_tokens rZero 1
      ≠ ["-R", "cpu=" ++ toString (cpus_of 1) ++ ",mem="
          ++ toString (spec_mem_mb rZero (cpus_of 1)) ++ "MB"] :=
  ⟨by decide, by decide, by decide, by decide, by decide, by decide⟩

theorem priority_flag_clamped_witness :
    priority_tokens jobW7.priority = ["-p", toString (max 1 (min 9999 jobW7.priority))] ∧
    (1 : Int) ≤ max 1 (min 9999 jobW7.priority) ∧
    max 1 (min 9999 jobW7.priority) ≤ 9999 ∧
    (jobW7.priority < 1 → max 1 (min 9999 jobW7.priority) = 1) ∧
    (9999 < jobW7.priority → max 1 (min 9999 jobW7.priority) = 9999) ∧
    (1 ≤ jobW7.priority → jobW7.priority ≤ 9999 →
      max 1 (min 9999 jobW7.priority) = jobW7.priority) :=
  (priority_flag_clamped "n" "l" "w" "x" jobW7).2.1 (by decide)

/-! ## Reconciler lemmas and claims -/

lemma reconcile_plugin_append (m : StatusMap) (l1 l2 : List SubmittedJobInfo) :
    reconcile_plugin m (l1 ++ l2) =
      ((reconcile_plugin m l1).1 ++ (reconcile_plugin m l2).1,
       (reconcile_plugin m l1).2 ++ (reconcile_plugin m l2).2) := by
  induction l1 with
  | nil => simp [reconcile_plugin]
  | cons j rest ih =>
    simp only [List.cons_append, reconcile_plugin, List.append_eq]
    rw [ih]
    cases h : lookupStatus m j.external_jobid with
    | none => simp
    | some st =>
      by_cases h1 : pyUpper st ∈ success_states
      · simp [h1]
      · by_cases h2 : pyUpper st ∈ fail_states
        · simp [h1, h2]
        · simp [h1, h2]

lemma reconcile_donau_append (m : StatusMap) (l1 l2 : List SubmittedJobInfo) :
    reconcile_donau m (l1 ++ l2) =
      ((reconcile_donau m l1).1 ++ (reconcile_donau m l2).1,
       (reconcile_donau m l1).2 ++ (reconcile_donau m l2).2) := by
  induction l1 with
  | nil => simp [reconcile_donau]
  | cons j rest ih =>
    simp only [List.cons_append, reconcile_donau, List.append_eq]
    rw [ih]
    cases h : lookupStatus m j.external_jobid with
    | none => simp
    | some st =>
      by_cases h1 : pyUpper st ∈ success_states
      · simp [h1]
      · by_cases h2 : pyUpper st ∈ fail_states
        · simp [h1, h2]
        · simp [h1, h2]

/-- A status map used in reconciler witnesses. -/
def mW : StatusMap := [("1", "RUNNING")]

def jA : SubmittedJobInfo := ⟨"1", some "a.log"⟩

def jB : SubmittedJobInfo := ⟨"2", some "b.log"⟩

/-- Claim C1 (amended): a tracked job whose id is absent from an obtained
status snapshot is reported as a success and not re-yielded by the plugin
variant reconciler, while the snakemake_executor_donau variant re-yields it
unchanged with no report; in either variant the other tracked jobs are
unaffected. -/
theorem absent_id_policy (m : StatusMap) (pre post : List SubmittedJobInfo)
    (j : SubmittedJobInfo) (h : lookupStatus m j.external_jobid = none) :
    reconcile_plugin m (pre ++ j :: post) =
      ((reconcile_plugin m pre).1 ++ (reconcile_plugin m post).1,
       (reconcile_plugin m pre).2 ++ Report.success j :: (reconcile_plugin m post).2) ∧
    reconcile_donau m (pre ++ j :: post) =
      ((reconcile_donau m pre).1 ++ j :: (reconcile_donau m post).1,
       (reconcile_donau m pre).2 ++ (reconcile_donau m post).2) := by
  constructor
  · rw [reconcile_plugin_append]
    have hj : reconcile_plugin m (j :: post) =
        ((reconcile_plugin m post).1, .success j :: (reconcile_plugin m post).2) := by
      simp [reconcile_plugin, h]
    rw [hj]
  · rw [reconcile_donau_append]
    have hj : reconcile_donau m (j :: post) =
        (j :: (reconcile_donau m post).1, (reconcile_donau m post).2) := by
      simp [reconcile_donau, h]
    rw [hj]

theorem absent_id_policy_witness :
    reconcile_plugin mW ([jA] ++ jB :: []) =
      ((reconcile_plugin mW [jA]).1 ++ (reconcile_plugin mW []).1,
       (reconcile_plugin mW [jA]).2 ++ Report.success jB :: (reconcile_plugin mW []).2) ∧
    reconcile_donau mW ([jA] ++ jB :: []) =
      ((reconcile_donau mW [jA]).1 ++ jB :: (reconcile_donau mW []).1,
       (reconcile_donau mW [jA]).2 ++ (reconcile_donau mW []).2) :=
  absent_id_policy mW [jA] [] jB (by decide)

/-- Claim C1 counterexample: the plugin reconciler does not treat a job whose
id is absent from a successfully obtained (here empty) snapshot as
still-pending — it reports success for it and re-yields nothing, against the
claimed re-yield with no reports. -/
theorem absent_id_counterexample :
    get_donau_job_status (.ok "") (.ok "") (job_ids_of [jW]) = some [] ∧
    full_tick (.ok "") (.ok "") [jW] = ([], [Report.success jW]) ∧
    (([], [Report.success jW]) : List SubmittedJobInfo × List Report) ≠ ([jW], []) :=
  ⟨by decide, by decide, by decide⟩

/-- Distinct tracked jobs used in the two-phase poll scenario. -/
def j100 : SubmittedJobInfo := ⟨"100", some "l100.log"⟩

def j200 : SubmittedJobInfo := ⟨"200", some "l200.log"⟩

/-- Claim C3: on query set 100 and 200, with the active query answering
"100 RUNNING", the remainder handed to the historical query is exactly 200;
with the historical query answering "200 FINISHED" the merged snapshot maps
100 to RUNNING and 200 to FINISHED, and the tick reports success for job 200
while re-yielding job 100. -/
theorem two_phase_poll_scenario :
    run_query (.ok "100 RUNNING") ["100", "200"] [] = ([("100", "RUNNING")], false) ∧
    remaining_ids ["100", "200"] [("100", "RUNNING")] = ["200"] ∧
    get_donau_job_status (.ok "100 RUNNING") (.ok "200 FINISHED") ["100", "200"]
      = some [("200", "FINISHED"), ("100", "RUNNING")] ∧
    lookupStatus [("200", "FINISHED"), ("100", "RUNNING")] "100" = some "RUNNING" ∧
    lookupStatus [("200", "FINISHED"), ("100", "RUNNING")] "200" = some "FINISHED" ∧
    full_tick (.ok "100 RUNNING") (.ok "200 FINISHED") [j100, j200]
      = ([j100], [Report.success j200]) :=
  ⟨by decide, by decide, by decide, by decide, by decide, by decide⟩

/-- Claim C9: for an obtained snapshot, every tracked job receives exactly
one of success report, failure report, or re-yield (counted with
multiplicity over the whole tick), and every failure report carries the
failing state in its message together with the job log path. -/
theorem reconcile_exactly_one (m : StatusMap) (jobs : List SubmittedJobInfo)
    (j : SubmittedJobInfo) :
    (reconcile_plugin m jobs).1.count j
      + ((reconcile_plugin m jobs).2.map report_job).count j = jobs.count j ∧
    (∀ j2 msg logs, Report.failure j2 msg logs ∈ (reconcile_plugin m jobs).2 →
      ∃ st, lookupStatus m j2.external_jobid = some st ∧ pyUpper st ∈ fail_states ∧
        msg = "Donau job " ++ j2.external_jobid ++ " failed with state " ++ pyUpper st ∧
        logs = [j2.logfile]) := by
  induction jobs with
  | nil =>
    refine ⟨rfl, ?_⟩
    intro j2 msg logs hmem
    simp [reconcile_plugin] at hmem
  | cons a rest ih =>
    obtain ⟨ih1, ih2⟩ := ih
    constructor
    · simp only [reconcile_plugin]
      cases h : lookupStatus m a.external_jobid with
      | none =>
        simp only [List.map_cons, List.count_cons, report_job]
        omega
      | some st =>
        by_cases h1 : pyUpper st ∈ success_states
        · simp only [h1, if_true, List.map_cons, List.count_cons, report_job]
          omega
        · by_cases h2 : pyUpper st ∈ fail_states
          · simp only [h1, h2, if_true, if_false, List.map_cons, List.count_cons, report_job]
            omega
          · simp only [h1, h2, if_false, List.count_cons]
            omega
    · intro j2 msg logs hmem
      simp only [reconcile_plugin] at hmem
      rw [show reconcile_plugin m rest
            = ((reconcile_plugin m rest).1, (reconcile_plugin m rest).2) from rfl] at hmem
      cases h : lookupStatus m a.external_jobid with
      | none =>
        rw [h] at hmem
        simp only [List.mem_cons] at hmem
        rcases hmem with hmem | hmem
        · exact absurd hmem (by simp)
        · exact ih2 j2 msg logs hmem
      | some st =>
        rw [h] at hmem
        by_cases h1 : pyUpper st ∈ success_states
        · simp only [h1, if_true, List.mem_cons] at hmem
          rcases hmem with hmem | hmem
          · exact absurd hmem (by simp)
          · exact ih2 j2 msg logs hmem
        · by_cases h2 : pyUpper st ∈ fail_states
          · simp only [h1, h2, if_true, if_false, List.mem_cons] at hmem
            rcases hmem with hmem | hmem
            · obtain ⟨hj2, hmsg, hlogs⟩ := Report.failure.inj hmem
              subst hj2
              exact ⟨st, h, h2, hmsg, hlogs⟩
            · exact ih2 j2 msg logs hmem
          · simp only [h1, h2, if_false] at hmem
            exact ih2 j2 msg logs hmem

theorem reconcile_exactly_one_witness :
    (reconcile_plugin mW [jA, jB]).1.count jA
      + ((reconcile_plugin mW [jA, jB]).2.map report_job).count jA = [jA, jB].count jA :=
  (reconcile_exactly_one mW [jA, jB] jA).1

/-- Claim C10: when the active-phase query fails, the poll returns no
snapshot regardless of what the historical phase would answer (it is never
consulted), and the tick re-yields every tracked job with no reports. -/
theorem active_phase_failure (h1 h2 : Except Unit String) (jobs : List SubmittedJobInfo)
    (hne : jobs ≠ []) :
    get_donau_job_status (.error ()) h1 (job_ids_of jobs) = none ∧
    get_donau_job_status (.error ()) h1 (job_ids_of jobs)
      = get_donau_job_status (.error ()) h2 (job_ids_of jobs) ∧
    full_tick (.error ()) h1 jobs = (jobs, []) := by
  have hids : job_ids_of jobs ≠ [] := by
    cases jobs with
    | nil => exact absurd rfl hne
    | cons a rest => simp [job_ids_of, List.dedup_eq_nil]
  have hnone : ∀ h : Except Unit String,
      get_donau_job_status (.error ()) h (job_ids_of jobs) = none := by
    intro h
    unfold get_donau_job_status run_query
    simp [hids]
  refine ⟨hnone h1, by rw [hnone h1, hnone h2], ?_⟩
  unfold full_tick check_active_jobs
  rw [hnone h1]
  simp [hids]

theorem active_phase_failure_witness :
    get_donau_job_status (.error ()) (.ok "7 RUNNING") (job_ids_of [jW]) = none ∧
    get_donau_job_status (.error ()) (.ok "7 RUNNING") (job_ids_of [jW])
      = get_donau_job_status (.error ()) (.error ()) (job_ids_of [jW]) ∧
    full_tick (.error ()) (.ok "7 RUNNING") [jW] = ([jW], []) :=
  active_phase_failure (.ok "7 RUNNING") (.error ()) [jW] (by decide)

end Donau
